import Mathlib

/-!
Verification of the crime-predictor app's reproducible core
(src/app/.ipynb_checkpoints/app-checkpoint.py): the feature-encoding
table, the column reindexing, the probability-to-percentage conversion,
and the risk-tier bucketing.  Numeric widget values are modelled as
rationals; the select/radio widgets yield strings exactly as the Python
code compares them.
-/

/-- Raw form values collected by the UI widgets (lines 54-121 of the app).
`victim_gender` ranges over the selectbox options
Male / Other / X / Female, `weapon_used` over
Blunt Object / Explosives / Firearm / Knife / None / Other / Poison / Unknown,
and `case_closed` over Yes / No, but the encoder itself only performs
string comparisons, so the fields are kept as strings. -/
structure RawIncidentInput where
  latitude : ℚ
  longitude : ℚ
  report_hour : ℚ
  report_day_of_week : ℚ
  report_month : ℚ
  victim_age : ℚ
  police_deployed : ℚ
  victim_gender : String
  weapon_used : String
  case_closed : String
deriving Repr, DecidableEq

/-- The feature dictionary built at lines 128-154, as an association list
in the dictionary's insertion order.  Each dummy column is
`1 if <field> == '<value>' else 0` exactly as in the source. -/
def data (i : RawIncidentInput) : List (String × ℚ) :=
  [ ("victim_age", i.victim_age),
    ("police_deployed", i.police_deployed),
    ("latitude", i.latitude),
    ("longitude", i.longitude),
    ("report_hour", i.report_hour),
    ("report_day_of_week", i.report_day_of_week),
    ("report_month", i.report_month),
    ("case_closed_Yes", if i.case_closed = "Yes" then 1 else 0),
    ("victim_gender_M", if i.victim_gender = "Male" then 1 else 0),
    ("victim_gender_X", if i.victim_gender = "X" then 1 else 0),
    ("weapon_used_Firearm", if i.weapon_used = "Firearm" then 1 else 0),
    ("weapon_used_Explosives", if i.weapon_used = "Explosives" then 1 else 0),
    ("weapon_used_Knife", if i.weapon_used = "Knife" then 1 else 0),
    ("weapon_used_Other", if i.weapon_used = "Other" then 1 else 0),
    ("weapon_used_Poison", if i.weapon_used = "Poison" then 1 else 0),
    ("weapon_used_Unknown", if i.weapon_used = "Unknown" then 1 else 0) ]

/-- The exact column order demanded at lines 160-177. -/
def expected_columns : List String :=
  [ "victim_age",
    "police_deployed",
    "latitude",
    "longitude",
    "report_hour",
    "report_day_of_week",
    "report_month",
    "victim_gender_M",
    "victim_gender_X",
    "weapon_used_Explosives",
    "weapon_used_Firearm",
    "weapon_used_Knife",
    "weapon_used_Other",
    "weapon_used_Poison",
    "weapon_used_Unknown",
    "case_closed_Yes" ]

/-- The column selection `input_df[expected_columns]` at line 180: every
requested column is looked up in the frame; a missing column raises a
`KeyError` naming it (caught at lines 181-183), modelled as the error
branch carrying the offending column name. -/
def reindex (cols : List String) (d : List (String × ℚ)) :
    Except String (List ℚ) :=
  cols.mapM (fun c =>
    match d.lookup c with
    | some v => Except.ok v
    | none => Except.error c)

/-- The reordered 16-slot feature vector the successful reindex produces,
in the order of `expected_columns`. -/
def encodeVec (i : RawIncidentInput) : List ℚ :=
  [ i.victim_age,
    i.police_deployed,
    i.latitude,
    i.longitude,
    i.report_hour,
    i.report_day_of_week,
    i.report_month,
    (if i.victim_gender = "Male" then 1 else 0),
    (if i.victim_gender = "X" then 1 else 0),
    (if i.weapon_used = "Explosives" then 1 else 0),
    (if i.weapon_used = "Firearm" then 1 else 0),
    (if i.weapon_used = "Knife" then 1 else 0),
    (if i.weapon_used = "Other" then 1 else 0),
    (if i.weapon_used = "Poison" then 1 else 0),
    (if i.weapon_used = "Unknown" then 1 else 0),
    (if i.case_closed = "Yes" then 1 else 0) ]

/-- Shared fact: the reindex of the feature dictionary always succeeds and
yields `encodeVec`, because the dictionary of lines 128-154 contains every
name in `expected_columns`. -/
theorem reindex_data (i : RawIncidentInput) :
    reindex expected_columns (data i) = Except.ok (encodeVec i) := rfl

example : reindex ["victim_age", "missing_col"]
    (data ⟨28.7, 77.1, 10, 2, 6, 35, 15, "Female", "Firearm", "No"⟩)
    = Except.error "missing_col" := rfl

/-- The three risk tiers of lines 197-205. -/
inductive Risk where
  | LOW
  | MODERATE
  | HIGH
deriving Repr, DecidableEq

/-- The threshold bucketing at lines 197-205:
`>= 70` HIGH, `elif >= 40` MODERATE, else LOW. -/
def risk_level (s : ℚ) : Risk :=
  if s ≥ 70 then Risk.HIGH
  else if s ≥ 40 then Risk.MODERATE
  else Risk.LOW

/-- Ordinal used to state monotonicity of the bucketing. -/
def riskOrd : Risk → ℕ
  | Risk.LOW => 0
  | Risk.MODERATE => 1
  | Risk.HIGH => 2

/-- Round-half-to-even on an exact rational, the tie-breaking Python's
built-in `round` uses. -/
def roundHalfEven (x : ℚ) : ℤ :=
  if Int.fract x < 1/2 then ⌊x⌋
  else if 1/2 < Int.fract x then ⌊x⌋ + 1
  else if ⌊x⌋ % 2 = 0 then ⌊x⌋ else ⌊x⌋ + 1

/-- `round(x, 2)`: round to two decimal places, as applied at line 190. -/
def pyround2 (x : ℚ) : ℚ := (roundHalfEven (x * 100) : ℚ) / 100

/-- Lines 189-190: `predict_proba` returns, for the one-row batch, a pair
(probability of class 0, probability of class 1); `[:, 1][0]` extracts the
positive-class probability, which is scaled by 100 and rounded to two
decimal places. -/
def prediction_score (proba_pair : ℚ × ℚ) : ℚ :=
  pyround2 (proba_pair.2 * 100)

/-- The rendered outcome of a successful prediction: the displayed
percentage and the bucketed tier (lines 190-217). -/
structure PredictionResult where
  probabilityPercent : ℚ
  tier : Risk
deriving Repr, DecidableEq

/-- The classifier call and result block at lines 187-222: the classifier
either yields a probability pair or fails; a failure is caught by the
`except` arm (line 221-222) and surfaced as an error with no result
rendered and no tier chosen. -/
def classifierAdapter (clf : List ℚ → Except String (ℚ × ℚ))
    (v : List ℚ) : Except String PredictionResult :=
  match clf v with
  | Except.error e => Except.error e
  | Except.ok pr =>
      Except.ok ⟨prediction_score pr, risk_level (prediction_score pr)⟩

/-- The whole prediction block behind the button (lines 125-222): build
the feature dictionary, reindex it to the expected column order (stopping
with the KeyError message on failure), then run the classifier adapter. -/
def predictRisk (clf : List ℚ → Except String (ℚ × ℚ))
    (i : RawIncidentInput) : Except String PredictionResult :=
  match reindex expected_columns (data i) with
  | Except.error e => Except.error e
  | Except.ok v => classifierAdapter clf v

/-- The process-wide state: the model handle loaded once at line 36 and
cached for the whole session; nothing else survives a request. -/
structure AppState where
  model : List ℚ → Except String (ℚ × ℚ)

/-- One button-press request cycle: reads the cached model handle, never
mutates it (lines 125-222 neither reassign `model` nor write any other
global). -/
def handleRequest (s : AppState) (i : RawIncidentInput) :
    AppState × Except String PredictionResult :=
  (s, predictRisk s.model i)

/-- A session: a sequence of button presses handled in order, threading
the process state through the requests. -/
def runSession (s : AppState) :
    List RawIncidentInput → List (Except String PredictionResult)
  | [] => []
  | i :: rest => (handleRequest s i).2 :: runSession (handleRequest s i).1 rest

/-- Helper: a 0/1 indicator is 0 or 1. -/
theorem ite01 (c : Prop) [Decidable c] :
    (if c then (1:ℚ) else 0) = 0 ∨ (if c then (1:ℚ) else 0) = 1 := by
  split <;> simp

/-- Helper: two indicator columns keyed to distinct string values sum to
at most 1. -/
theorem pair_ind_le_one (w a b : String) (hab : a ≠ b) :
    (if w = a then (1:ℚ) else 0) + (if w = b then (1:ℚ) else 0) ≤ 1 := by
  split_ifs with h1 h2 <;> try norm_num
  exact absurd (h1.symm.trans h2) hab

/-- Helper: the six weapon indicator columns sum to at most 1, since a
string equals at most one of the six distinct category names. -/
theorem weapon_ind_le_one (w : String) :
    (if w = "Explosives" then (1:ℚ) else 0) + (if w = "Firearm" then (1:ℚ) else 0) +
    (if w = "Knife" then (1:ℚ) else 0) + (if w = "Other" then (1:ℚ) else 0) +
    (if w = "Poison" then (1:ℚ) else 0) + (if w = "Unknown" then (1:ℚ) else 0) ≤ 1 := by
  by_cases h1 : w = "Explosives"
  · subst h1
    rw [if_pos rfl, if_neg (by decide), if_neg (by decide), if_neg (by decide),
      if_neg (by decide), if_neg (by decide)]
    norm_num
  by_cases h2 : w = "Firearm"
  · subst h2
    rw [if_neg (by decide), if_pos rfl, if_neg (by decide), if_neg (by decide),
      if_neg (by decide), if_neg (by decide)]
    norm_num
  by_cases h3 : w = "Knife"
  · subst h3
    rw [if_neg (by decide), if_neg (by decide), if_pos rfl, if_neg (by decide),
      if_neg (by decide), if_neg (by decide)]
    norm_num
  by_cases h4 : w = "Other"
  · subst h4
    rw [if_neg (by decide), if_neg (by decide), if_neg (by decide), if_pos rfl,
      if_neg (by decide), if_neg (by decide)]
    norm_num
  by_cases h5 : w = "Poison"
  · subst h5
    rw [if_neg (by decide), if_neg (by decide), if_neg (by decide), if_neg (by decide),
      if_pos rfl, if_neg (by decide)]
    norm_num
  by_cases h6 : w = "Unknown"
  · subst h6
    rw [if_neg (by decide), if_neg (by decide), if_neg (by decide), if_neg (by decide),
      if_neg (by decide), if_pos rfl]
    norm_num
  simp [h1, h2, h3, h4, h5, h6]

/-- Helper: rounding an exact integer changes nothing. -/
theorem roundHalfEven_int (n : ℤ) : roundHalfEven (n : ℚ) = n := by
  unfold roundHalfEven
  rw [Int.fract_intCast, Int.floor_intCast]
  norm_num

/-- C1: for every probability percentage p in [0,100] the bucketing
assigns exactly one tier with closed lower bounds (HIGH iff p >= 70,
MODERATE iff 40 <= p < 70, LOW iff p < 40), the boundaries 40 and 70 map
to MODERATE and HIGH, and the tier is monotonically non-decreasing. -/
theorem risk_level_thresholds_monotone (p q : ℚ)
    (hp0 : 0 ≤ p) (hp100 : p ≤ 100) (hpq : p ≤ q) :
    (risk_level p = Risk.HIGH ↔ 70 ≤ p) ∧
    (risk_level p = Risk.MODERATE ↔ 40 ≤ p ∧ p < 70) ∧
    (risk_level p = Risk.LOW ↔ p < 40) ∧
    risk_level 40 = Risk.MODERATE ∧
    risk_level 70 = Risk.HIGH ∧
    riskOrd (risk_level p) ≤ riskOrd (risk_level q) := by
  unfold risk_level
  refine ⟨?_, ?_, ?_, by norm_num, by norm_num, ?_⟩ <;>
    split_ifs <;> simp_all [riskOrd] <;> linarith

/-- Witness for C1 at the boundary pair p = 40, q = 70. -/
theorem risk_level_thresholds_monotone_witness :
    (risk_level 40 = Risk.HIGH ↔ (70:ℚ) ≤ 40) ∧
    (risk_level 40 = Risk.MODERATE ↔ (40:ℚ) ≤ 40 ∧ (40:ℚ) < 70) ∧
    (risk_level 40 = Risk.LOW ↔ (40:ℚ) < 40) ∧
    risk_level 40 = Risk.MODERATE ∧
    risk_level 70 = Risk.HIGH ∧
    riskOrd (risk_level 40) ≤ riskOrd (risk_level 70) :=
  risk_level_thresholds_monotone 40 70 (by norm_num) (by norm_num) (by norm_num)

/-- C6: the adapter's score depends only on the positive-class component
of the probability pair, equals that probability as a percentage rounded
to two decimals, and the three spec scenarios (0.85, 0.55, 0.10) yield
85.0 / HIGH, 55.0 / MODERATE, 10.0 / LOW. -/
theorem prediction_score_positive_class :
    (∀ a b p : ℚ, prediction_score (a, p) = prediction_score (b, p)) ∧
    (∀ pn pp : ℚ, prediction_score (pn, pp) = pyround2 (pp * 100)) ∧
    prediction_score (0.15, 0.85) = 85 ∧
    risk_level (prediction_score (0.15, 0.85)) = Risk.HIGH ∧
    prediction_score (0.45, 0.55) = 55 ∧
    risk_level (prediction_score (0.45, 0.55)) = Risk.MODERATE ∧
    prediction_score (0.9, 0.10) = 10 ∧
    risk_level (prediction_score (0.9, 0.10)) = Risk.LOW := by
  have h85 : prediction_score (0.15, 0.85) = 85 := by
    show pyround2 ((0.85:ℚ) * 100) = 85
    unfold pyround2
    rw [show (0.85:ℚ) * 100 * 100 = ((8500:ℤ):ℚ) by norm_num, roundHalfEven_int]
    norm_num
  have h55 : prediction_score (0.45, 0.55) = 55 := by
    show pyround2 ((0.55:ℚ) * 100) = 55
    unfold pyround2
    rw [show (0.55:ℚ) * 100 * 100 = ((5500:ℤ):ℚ) by norm_num, roundHalfEven_int]
    norm_num
  have h10 : prediction_score (0.9, 0.10) = 10 := by
    show pyround2 ((0.10:ℚ) * 100) = 10
    unfold pyround2
    rw [show (0.10:ℚ) * 100 * 100 = ((1000:ℤ):ℚ) by norm_num, roundHalfEven_int]
    norm_num
  refine ⟨fun a b p => rfl, fun pn pp => rfl, h85, ?_, h55, ?_, h10, ?_⟩
  · rw [h85]; unfold risk_level
    rw [if_pos (by norm_num : (85:ℚ) ≥ 70)]
  · rw [h55]; unfold risk_level
    rw [if_neg (by norm_num : ¬ (55:ℚ) ≥ 70), if_pos (by norm_num : (55:ℚ) ≥ 40)]
  · rw [h10]; unfold risk_level
    rw [if_neg (by norm_num : ¬ (10:ℚ) ≥ 70), if_neg (by norm_num : ¬ (10:ℚ) ≥ 40)]

/-- C7: the spec's concrete scenario input encodes to exactly the stated
16-slot vector, the continuous slots passed through unchanged. -/
theorem scenario_encoding :
    encodeVec ⟨28.70, 77.10, 10, 2, 6, 35, 15, "Female", "Firearm", "No"⟩ =
      [35, 15, 28.70, 77.10, 10, 2, 6, 0, 0, 0, 1, 0, 0, 0, 0, 0] := rfl

/-- C10: the KeyError branch of the column reindex is unreachable: for
every input the feature dictionary contains all 16 expected column names,
so `input_df[expected_columns]` succeeds and yields the ordered vector. -/
theorem reindex_always_succeeds (i : RawIncidentInput) :
    reindex expected_columns (data i) = Except.ok (encodeVec i) :=
  reindex_data i

/-- C2: for every input the encoded vector has exactly 16 slots in the
fixed order, the seven leading continuous slots carry the raw input values
unscaled, every dummy slot is 0 or 1, and at most one of the two gender
dummies and at most one of the six weapon dummies is set. -/
theorem encoder_shape_invariants (i : RawIncidentInput) :
    (encodeVec i).length = 16 ∧
    (encodeVec i).getD 0 0 = i.victim_age ∧
    (encodeVec i).getD 1 0 = i.police_deployed ∧
    (encodeVec i).getD 2 0 = i.latitude ∧
    (encodeVec i).getD 3 0 = i.longitude ∧
    (encodeVec i).getD 4 0 = i.report_hour ∧
    (encodeVec i).getD 5 0 = i.report_day_of_week ∧
    (encodeVec i).getD 6 0 = i.report_month ∧
    ((encodeVec i).getD 7 0 = 0 ∨ (encodeVec i).getD 7 0 = 1) ∧
    ((encodeVec i).getD 8 0 = 0 ∨ (encodeVec i).getD 8 0 = 1) ∧
    ((encodeVec i).getD 9 0 = 0 ∨ (encodeVec i).getD 9 0 = 1) ∧
    ((encodeVec i).getD 10 0 = 0 ∨ (encodeVec i).getD 10 0 = 1) ∧
    ((encodeVec i).getD 11 0 = 0 ∨ (encodeVec i).getD 11 0 = 1) ∧
    ((encodeVec i).getD 12 0 = 0 ∨ (encodeVec i).getD 12 0 = 1) ∧
    ((encodeVec i).getD 13 0 = 0 ∨ (encodeVec i).getD 13 0 = 1) ∧
    ((encodeVec i).getD 14 0 = 0 ∨ (encodeVec i).getD 14 0 = 1) ∧
    ((encodeVec i).getD 15 0 = 0 ∨ (encodeVec i).getD 15 0 = 1) ∧
    (encodeVec i).getD 7 0 + (encodeVec i).getD 8 0 ≤ 1 ∧
    (encodeVec i).getD 9 0 + (encodeVec i).getD 10 0 + (encodeVec i).getD 11 0 +
      (encodeVec i).getD 12 0 + (encodeVec i).getD 13 0 + (encodeVec i).getD 14 0 ≤ 1 := by
  refine ⟨rfl, rfl, rfl, rfl, rfl, rfl, rfl, rfl,
    ite01 _, ite01 _, ite01 _, ite01 _, ite01 _, ite01 _, ite01 _, ite01 _, ite01 _,
    ?_, ?_⟩
  · exact pair_ind_le_one i.victim_gender "Male" "X" (by decide)
  · exact weapon_ind_le_one i.weapon_used

/-- C4: the gender dummy slots: `victim_gender_M = 1` iff the gender is
Male, `victim_gender_X = 1` iff it is X, and both are 0 for Female and
Other. -/
theorem gender_dummies (i : RawIncidentInput) :
    ((encodeVec i).getD 7 0 = 1 ↔ i.victim_gender = "Male") ∧
    ((encodeVec i).getD 8 0 = 1 ↔ i.victim_gender = "X") ∧
    (i.victim_gender = "Female" ∨ i.victim_gender = "Other" →
      (encodeVec i).getD 7 0 = 0 ∧ (encodeVec i).getD 8 0 = 0) := by
  have e7 : (encodeVec i).getD 7 0 = (if i.victim_gender = "Male" then (1:ℚ) else 0) := rfl
  have e8 : (encodeVec i).getD 8 0 = (if i.victim_gender = "X" then (1:ℚ) else 0) := rfl
  rw [e7, e8]
  refine ⟨?_, ?_, ?_⟩
  · split_ifs with h <;> simp [h]
  · split_ifs with h <;> simp [h]
  · rintro (h | h) <;> rw [h] <;> exact ⟨rfl, rfl⟩

/-- C5: the weapon dummy slots one-hot-encode `weapon_used`: each of the
six enumerated values sets exactly its own slot, and Blunt Object / None
set all six to 0. -/
theorem weapon_dummies (i : RawIncidentInput) :
    (i.weapon_used = "Explosives" →
      [(encodeVec i).getD 9 0, (encodeVec i).getD 10 0, (encodeVec i).getD 11 0,
       (encodeVec i).getD 12 0, (encodeVec i).getD 13 0, (encodeVec i).getD 14 0]
        = [1, 0, 0, 0, 0, 0]) ∧
    (i.weapon_used = "Firearm" →
      [(encodeVec i).getD 9 0, (encodeVec i).getD 10 0, (encodeVec i).getD 11 0,
       (encodeVec i).getD 12 0, (encodeVec i).getD 13 0, (encodeVec i).getD 14 0]
        = [0, 1, 0, 0, 0, 0]) ∧
    (i.weapon_used = "Knife" →
      [(encodeVec i).getD 9 0, (encodeVec i).getD 10 0, (encodeVec i).getD 11 0,
       (encodeVec i).getD 12 0, (encodeVec i).getD 13 0, (encodeVec i).getD 14 0]
        = [0, 0, 1, 0, 0, 0]) ∧
    (i.weapon_used = "Other" →
      [(encodeVec i).getD 9 0, (encodeVec i).getD 10 0, (encodeVec i).getD 11 0,
       (encodeVec i).getD 12 0, (encodeVec i).getD 13 0, (encodeVec i).getD 14 0]
        = [0, 0, 0, 1, 0, 0]) ∧
    (i.weapon_used = "Poison" →
      [(encodeVec i).getD 9 0, (encodeVec i).getD 10 0, (encodeVec i).getD 11 0,
       (encodeVec i).getD 12 0, (encodeVec i).getD 13 0, (encodeVec i).getD 14 0]
        = [0, 0, 0, 0, 1, 0]) ∧
    (i.weapon_used = "Unknown" →
      [(encodeVec i).getD 9 0, (encodeVec i).getD 10 0, (encodeVec i).getD 11 0,
       (encodeVec i).getD 12 0, (encodeVec i).getD 13 0, (encodeVec i).getD 14 0]
        = [0, 0, 0, 0, 0, 1]) ∧
    (i.weapon_used = "Blunt Object" ∨ i.weapon_used = "None" →
      [(encodeVec i).getD 9 0, (encodeVec i).getD 10 0, (encodeVec i).getD 11 0,
       (encodeVec i).getD 12 0, (encodeVec i).getD 13 0, (encodeVec i).getD 14 0]
        = [0, 0, 0, 0, 0, 0]) := by
  have e9 : (encodeVec i).getD 9 0 = (if i.weapon_used = "Explosives" then (1:ℚ) else 0) := rfl
  have e10 : (encodeVec i).getD 10 0 = (if i.weapon_used = "Firearm" then (1:ℚ) else 0) := rfl
  have e11 : (encodeVec i).getD 11 0 = (if i.weapon_used = "Knife" then (1:ℚ) else 0) := rfl
  have e12 : (encodeVec i).getD 12 0 = (if i.weapon_used = "Other" then (1:ℚ) else 0) := rfl
  have e13 : (encodeVec i).getD 13 0 = (if i.weapon_used = "Poison" then (1:ℚ) else 0) := rfl
  have e14 : (encodeVec i).getD 14 0 = (if i.weapon_used = "Unknown" then (1:ℚ) else 0) := rfl
  rw [e9, e10, e11, e12, e13, e14]
  refine ⟨fun h => by rw [h]; rfl, fun h => by rw [h]; rfl, fun h => by rw [h]; rfl,
    fun h => by rw [h]; rfl, fun h => by rw [h]; rfl, fun h => by rw [h]; rfl, ?_⟩
  rintro (h | h) <;> rw [h] <;> rfl

/-- C8: no hidden state: a session of button presses yields, for each
submitted input, exactly the result of the pure per-request pipeline on
that input and the once-loaded model handle, independent of call order
and prior calls. -/
theorem encoding_pure_no_hidden_state (s : AppState) (inputs : List RawIncidentInput) :
    runSession s inputs = inputs.map (fun i => predictRisk s.model i) := by
  induction inputs with
  | nil => rfl
  | cons a t ih => simp [runSession, handleRequest, ih]

/-- C9: when the classifier fails on a vector, the adapter propagates the
error: no PredictionResult and no default tier is produced. -/
theorem inference_error_propagates (clf : List ℚ → Except String (ℚ × ℚ))
    (v : List ℚ) (e : String) (h : clf v = Except.error e) :
    classifierAdapter clf v = Except.error e := by
  unfold classifierAdapter
  rw [h]

/-- Witness for C9: a classifier that always fails makes the adapter
return exactly that failure. -/
theorem inference_error_propagates_witness :
    classifierAdapter (fun _ => Except.error "model failure") []
      = Except.error "model failure" :=
  inference_error_propagates (fun _ => Except.error "model failure") [] "model failure" rfl

/-- A concrete submission whose weapon string lies outside the enumerated
weapon set. -/
def i_sword : RawIncidentInput :=
  ⟨28.7, 77.1, 10, 2, 6, 35, 15, "Female", "Sword", "No"⟩

/-- C3 counterexample: an unrecognized weapon value is NOT rejected; the
encoder still produces a vector (all six weapon dummies 0) and the
classifier is called on it, yielding a result. -/
theorem unknown_weapon_not_rejected :
    reindex expected_columns (data i_sword) =
      Except.ok [35, 15, 28.7, 77.1, 10, 2, 6, 0, 0, 0, 0, 0, 0, 0, 0, 0] ∧
    predictRisk (fun _ => Except.ok (0.2, 0.8)) i_sword =
      Except.ok ⟨80, Risk.HIGH⟩ := by
  have hps : prediction_score (0.2, 0.8) = 80 := by
    show pyround2 ((0.8:ℚ) * 100) = 80
    unfold pyround2
    rw [show (0.8:ℚ) * 100 * 100 = ((8000:ℤ):ℚ) by norm_num, roundHalfEven_int]
    norm_num
  have hrl : risk_level (80:ℚ) = Risk.HIGH := by
    unfold risk_level
    rw [if_pos (by norm_num : (80:ℚ) ≥ 70)]
  refine ⟨rfl, ?_⟩
  calc predictRisk (fun _ => Except.ok (0.2, 0.8)) i_sword
      = Except.ok ⟨prediction_score (0.2, 0.8),
          risk_level (prediction_score (0.2, 0.8))⟩ := rfl
    _ = Except.ok ⟨80, Risk.HIGH⟩ := by rw [hps, hrl]

/-- C3 amended: for every input whose weapon value is outside the six
retained dummy categories, the encoder does not fail: it silently encodes
the weapon as the reference category (all six weapon dummies 0) and the
vector is produced as usual. -/
theorem unknown_weapon_silently_defaulted (i : RawIncidentInput)
    (h : ¬ i.weapon_used ∈
      (["Explosives", "Firearm", "Knife", "Other", "Poison", "Unknown"] : List String)) :
    reindex expected_columns (data i) = Except.ok (encodeVec i) ∧
    [(encodeVec i).getD 9 0, (encodeVec i).getD 10 0, (encodeVec i).getD 11 0,
     (encodeVec i).getD 12 0, (encodeVec i).getD 13 0, (encodeVec i).getD 14 0]
      = [0, 0, 0, 0, 0, 0] := by
  simp only [List.mem_cons, List.not_mem_nil, or_false] at h
  push_neg at h
  obtain ⟨h1, h2, h3, h4, h5, h6⟩ := h
  have e9 : (encodeVec i).getD 9 0 = (if i.weapon_used = "Explosives" then (1:ℚ) else 0) := rfl
  have e10 : (encodeVec i).getD 10 0 = (if i.weapon_used = "Firearm" then (1:ℚ) else 0) := rfl
  have e11 : (encodeVec i).getD 11 0 = (if i.weapon_used = "Knife" then (1:ℚ) else 0) := rfl
  have e12 : (encodeVec i).getD 12 0 = (if i.weapon_used = "Other" then (1:ℚ) else 0) := rfl
  have e13 : (encodeVec i).getD 13 0 = (if i.weapon_used = "Poison" then (1:ℚ) else 0) := rfl
  have e14 : (encodeVec i).getD 14 0 = (if i.weapon_used = "Unknown" then (1:ℚ) else 0) := rfl
  refine ⟨reindex_data i, ?_⟩
  rw [e9, e10, e11, e12, e13, e14,
    if_neg h1, if_neg h2, if_neg h3, if_neg h4, if_neg h5, if_neg h6]

/-- Witness for the amended C3 at the concrete weapon value "Sword". -/
theorem unknown_weapon_silently_defaulted_witness :
    reindex expected_columns (data i_sword) = Except.ok (encodeVec i_sword) ∧
    [(encodeVec i_sword).getD 9 0, (encodeVec i_sword).getD 10 0,
     (encodeVec i_sword).getD 11 0, (encodeVec i_sword).getD 12 0,
     (encodeVec i_sword).getD 13 0, (encodeVec i_sword).getD 14 0]
      = [0, 0, 0, 0, 0, 0] :=
  unknown_weapon_silently_defaulted i_sword (by decide)
